import Mathlib

/-!
Verification of the scheduler's job-run state machine, leader tick and
worker runtime against their natural-language specification.

The definitions below are a shallow embedding of the Python sources:

* scheduler/models.py            — the JobRun data model (states, fields);
* scheduler/leader_tick.py       — schedule matching, minute-slot
  materialization, orphaning, confirming, rebalance, assignment and the
  load-aware worker picker;
* scheduler/grpc/runtime.py      — the transactional RUNNING / terminal
  transitions performed by the worker runtime;
* scheduler/management/commands/scheduler_worker.py — the dispatcher's
  skip-late transition and the reconciler's confirming/orphan transitions.

Modelling conventions:

* UTC timestamps are natural numbers counting seconds; the Unix epoch fell
  on a Thursday, which fixes the weekday arithmetic (Python weekday has
  Monday = 0, so the epoch day maps to 3).
* Python ints are Lean Int; database rows are Lean structures.
* Every store update runs inside a row-locked transaction and either
  persists one new row value or leaves the row untouched; such an
  operation is embedded as a function returning Option JobRun, where
  some r is the persisted row and none means no write happened (for the
  Boolean-returning Python helpers, some corresponds to returning True).
* A JSON schedule dict is embedded as a record of optional typed values
  for the six keys the code reads; a missing key is none.  Values of the
  wrong runtime type (where Python int(...) would raise and the code
  returns False) and keys bound to JSON null are outside the model.
* The auto-now updated_at column and the float-valued
  resource_cpu_seconds_total column are not modelled (floating point);
  neither is read by any guard.
-/

namespace SchedulerSpec

/-- Embedding of JobRun.State from scheduler/models.py. -/
inductive State where
  | PENDING
  | ASSIGNED
  | RUNNING
  | SUCCEEDED
  | FAILED
  | CANCELED
  | SKIPPED
  | TIMED_OUT
  | ORPHANED
deriving DecidableEq

/-- Terminal set per the spec and the guard set in _jobrun_finish
(scheduler/grpc/runtime.py lines 243-250). -/
def State.isTerminal : State → Bool
  | .SUCCEEDED => true
  | .FAILED => true
  | .CANCELED => true
  | .SKIPPED => true
  | .TIMED_OUT => true
  | _ => false

/-- Embedding of JobRun.ContinuationState from scheduler/models.py. -/
inductive ContinuationState where
  | NONE
  | CONFIRMING
deriving DecidableEq

/-- Embedding of the JobRun row (scheduler/models.py).  Timestamps are
seconds; nullable columns are Option. -/
structure JobRun where
  id : Nat
  job_definition : Nat
  scheduled_for : Option Nat := none
  assigned_at : Option Nat := none
  assigned_worker_id : String := ""
  state : State := .PENDING
  attempt : Int := 0
  version : Int := 0
  leader_epoch : Option Int := none
  started_at : Option Nat := none
  finished_at : Option Nat := none
  exit_code : Option Int := none
  error_summary : String := ""
  log_ref : String := ""
  idempotency_key : String := ""
  resource_peak_rss_bytes : Option Int := none
  resource_io_read_bytes : Option Int := none
  resource_io_write_bytes : Option Int := none
  continuation_state : ContinuationState := .NONE
  continuation_check_started_at : Option Nat := none
  continuation_check_deadline_at : Option Nat := none
deriving DecidableEq

/-- Minute-slot view of a datetime: the fields of a Python datetime the
schedule matcher reads (dt.minute, dt.hour, dt.weekday() with Monday = 0). -/
structure SlotTime where
  minute : Nat
  hour : Nat
  weekday : Nat
deriving DecidableEq

/-- Slot view of a UTC timestamp in seconds.  1970-01-01 was a Thursday,
hence the +3 in the weekday computation (Python weekday has Monday = 0). -/
def toSlot (t : Nat) : SlotTime :=
  { minute := t / 60 % 60, hour := t / 3600 % 24, weekday := (t / 86400 + 3) % 7 }

/-- Embedding of a schedule JSON dict: the six keys read by
_schedule_matches_slot (scheduler/leader_tick.py lines 61-128), each
optional (none = key absent). -/
structure Schedule where
  every_n_minutes : Option Int := none
  kind : Option String := none
  n : Option Int := none
  minute : Option Int := none
  time : Option String := none
  weekday : Option Int := none
deriving DecidableEq

/-- Embedding of _schedule_matches_every_n_minutes
(scheduler/leader_tick.py lines 38-41). -/
def _schedule_matches_every_n_minutes (dt : SlotTime) (every_n_minutes : Int) : Bool :=
  if every_n_minutes ≤ 0 then false
  else (dt.minute : Int) % every_n_minutes == 0

/-- Strip of leading and trailing whitespace on a character list,
embedding Python str.strip() for the ASCII whitespace the code meets. -/
def stripChars (l : List Char) : List Char :=
  ((l.dropWhile Char.isWhitespace).reverse.dropWhile Char.isWhitespace).reverse

/-- Strip of a string, embedding Python str.strip(). -/
def pyStrip (s : String) : String := String.mk (stripChars s.data)

/-- Split of a character list at every occurrence of a separator
character, embedding Python str.split(sep) for a one-character sep. -/
def splitChar (c : Char) : List Char → List (List Char)
  | [] => [[]]
  | x :: xs =>
    match splitChar c xs with
    | [] => [[]]
    | h :: t => if x = c then [] :: h :: t else (x :: h) :: t

/-- Test that a character list is a non-empty run of decimal digits. -/
def isDigits (l : List Char) : Bool := !l.isEmpty && l.all Char.isDigit

/-- Value of a run of decimal digits. -/
def digitsVal (l : List Char) : Nat := l.foldl (fun a c => a * 10 + (c.toNat - 48)) 0

/-- Embedding of Python int(s) on a string: surrounding whitespace, an
optional sign, then decimal digits; anything else raises (here: none). -/
def pyInt (s : String) : Option Int :=
  match stripChars s.data with
  | '-' :: rest => if isDigits rest then some (-(digitsVal rest : Int)) else none
  | '+' :: rest => if isDigits rest then some ((digitsVal rest : Int)) else none
  | t => if isDigits t then some ((digitsVal t : Int)) else none

/-- Embedding of _parse_hhmm (scheduler/leader_tick.py lines 44-58). -/
def _parse_hhmm (value : String) : Option (Int × Int) :=
  let s := pyStrip value
  if s = "" then none
  else
    match splitChar ':' s.data with
    | [a, b] =>
      match pyInt (String.mk a), pyInt (String.mk b) with
      | some hh, some mm =>
        if 0 ≤ hh ∧ hh ≤ 23 ∧ 0 ≤ mm ∧ mm ≤ 59 then some (hh, mm) else none
      | _, _ => none
    | _ => none

/-- Trimmed kind string, as computed at scheduler/leader_tick.py line 80. -/
def kindTrim (schedule : Schedule) : String :=
  pyStrip (schedule.kind.getD "")

/-- Embedding of the kind-dispatch part of _schedule_matches_slot
(scheduler/leader_tick.py lines 80-128).  Python int(...) coercions are
identities here because the model stores typed values. -/
def _schedule_matches_kind (dt : SlotTime) (schedule : Schedule) : Bool :=
  let kind := kindTrim schedule
  if kind = "every_n_minutes" then
    _schedule_matches_every_n_minutes dt (schedule.n.getD 0)
  else if kind = "hourly" then
    let minute := schedule.minute.getD 0
    if 0 ≤ minute ∧ minute ≤ 59 then (dt.minute : Int) == minute else false
  else if kind = "daily" then
    match _parse_hhmm (schedule.time.getD "") with
    | none => false
    | some (hh, mm) => (dt.hour : Int) == hh && (dt.minute : Int) == mm
  else if kind = "weekdays" then
    match _parse_hhmm (schedule.time.getD "") with
    | none => false
    | some (hh, mm) =>
      if 5 ≤ dt.weekday then false
      else (dt.hour : Int) == hh && (dt.minute : Int) == mm
  else if kind = "weekly" then
    match _parse_hhmm (schedule.time.getD "") with
    | none => false
    | some (hh, mm) =>
      let weekday := schedule.weekday.getD (-1)
      if 0 ≤ weekday ∧ weekday ≤ 6 then
        (dt.weekday : Int) == weekday && (dt.hour : Int) == hh && (dt.minute : Int) == mm
      else false
  else false

/-- Embedding of _schedule_matches_slot (scheduler/leader_tick.py lines
61-128): the legacy every_n_minutes form applies only when the kind key
is absent; otherwise matching dispatches on the trimmed kind. -/
def _schedule_matches_slot (dt : SlotTime) (schedule : Schedule) : Bool :=
  match schedule.every_n_minutes, schedule.kind with
  | some legacy_n, none => _schedule_matches_every_n_minutes dt legacy_n
  | _, _ => _schedule_matches_kind dt schedule

/-- Embedding of _floor_to_minute (scheduler/leader_tick.py lines 27-28). -/
def _floor_to_minute (t : Nat) : Nat := t - t % 60

/-- Embedding of _iter_minute_slots (scheduler/leader_tick.py lines
31-35): the loop yields start_dt, start_dt + 60, ... while the value is
at most end_dt, i.e. the arithmetic progression below — the loop runs
(end_dt + 60 - start_dt) / 60 times (zero when start exceeds end). -/
def _iter_minute_slots (start_dt end_dt : Nat) : List Nat :=
  (List.range ((end_dt + 60 - start_dt) / 60)).map (fun i => start_dt + 60 * i)

/-- Sanity check that the closed form above satisfies the recurrence of
the Python generator loop: yield the current value and advance by one
minute while it does not exceed end_dt. -/
theorem _iter_minute_slots_eq (s e : Nat) :
    _iter_minute_slots s e =
      if s ≤ e then s :: _iter_minute_slots (s + 60) e else [] := by
  by_cases h : s ≤ e
  · simp only [if_pos h, _iter_minute_slots]
    have hcount : (e + 60 - s) / 60 = (e + 60 - (s + 60)) / 60 + 1 := by omega
    rw [hcount, List.range_succ_eq_map]
    simp only [List.map_cons, List.map_map]
    refine List.cons_eq_cons.mpr ⟨by omega, ?_⟩
    apply List.map_congr_left
    intro i _
    simp only [Function.comp_apply, Nat.succ_eq_add_one]
    omega
  · simp only [if_neg h, _iter_minute_slots]
    have : (e + 60 - s) / 60 = 0 := by omega
    simp [this]

/-- Membership characterization of the slot iteration: exactly the
values start + 60 k that do not exceed end_dt. -/
theorem mem_iter_minute_slots (s e x : Nat) :
    x ∈ _iter_minute_slots s e ↔ ∃ k, x = s + 60 * k ∧ x ≤ e := by
  simp only [_iter_minute_slots, List.mem_map, List.mem_range]
  constructor
  · rintro ⟨i, hi, rfl⟩
    exact ⟨i, rfl, by omega⟩
  · rintro ⟨k, rfl, hk⟩
    exact ⟨k, by omega, rfl⟩

/-- Materialization of one enabled TIME definition, phase C of the
leader tick (scheduler/leader_tick.py lines 170-172 and 282-294): the
window is floor(now) to floor(now + max(0, assign_ahead_seconds)), and
a run is created for each matching slot with no existing
(definition, slot) run.  The result lists the scheduled_for values of
the runs created (each created with state PENDING and attempt 0). -/
def materialize_created_slots (schedule : Schedule) (now : Nat)
    (assign_ahead_seconds : Int) (existing : List Nat) : List Nat :=
  let window_start := _floor_to_minute now
  let window_end := _floor_to_minute (now + (max 0 assign_ahead_seconds).toNat)
  (_iter_minute_slots window_start window_end).filter
    (fun slot => _schedule_matches_slot (toSlot slot) schedule && !(existing.contains slot))

/-- Append-style summary write used across the code base, embedding the
Python idiom (old + newline if old else empty) + line. -/
def appendSummary (old line : String) : String :=
  (if old ≠ "" then old ++ "\n" else "") ++ line

/-- Truncation of a string to its first 2000 characters, embedding the
Python slice [:2000] used in _jobrun_finish. -/
def take2000 (s : String) : String := String.mk (s.data.take 2000)

/-- Conditional field write: the Python pattern (if v is not None then
assign v else keep the stored value). -/
def overrideOpt (new old : Option Int) : Option Int :=
  match new with
  | some v => some v
  | none => old

/-- Embedding of _jobrun_mark_running (scheduler/grpc/runtime.py lines
193-215) acting on the row it selected for update; the DoesNotExist
branch is handled by callers binding over an optional row.  A some
result is the row as saved (returning True); none means no write
(returning False). -/
def _jobrun_mark_running (now : Nat) (jr : JobRun) (worker_id : String)
    (leader_epoch : Int) (attempt : Int) (log_ref : String) : Option JobRun :=
  if jr.state ≠ State.ASSIGNED then none
  else if jr.assigned_worker_id ≠ worker_id then none
  else
    match jr.leader_epoch with
    | some stored =>
      if stored > leader_epoch then none
      else some { jr with state := .RUNNING, started_at := some now,
                          attempt := attempt, log_ref := log_ref,
                          version := jr.version + 1 }
    | none =>
      some { jr with state := .RUNNING, started_at := some now,
                     attempt := attempt, log_ref := log_ref,
                     version := jr.version + 1 }

/-- Embedding of _jobrun_finish (scheduler/grpc/runtime.py lines
218-275) acting on the selected row: a mismatched non-empty assigned
worker or an already-terminal state is a no-op; otherwise the terminal
write happens with the summary truncated to 2000 characters and the
resource fields written only when provided. -/
def _jobrun_finish (now : Nat) (jr : JobRun) (worker_id : String)
    (final_state : State) (exit_code : Option Int) (error_summary : String)
    (log_ref : String) (resource_peak_rss_bytes resource_io_read_bytes
    resource_io_write_bytes : Option Int) : Option JobRun :=
  if jr.assigned_worker_id ≠ "" ∧ jr.assigned_worker_id ≠ worker_id then none
  else if jr.state.isTerminal then none
  else
    some { jr with
      state := final_state,
      finished_at := some now,
      exit_code := exit_code,
      error_summary := take2000 error_summary,
      log_ref := log_ref,
      resource_peak_rss_bytes := overrideOpt resource_peak_rss_bytes jr.resource_peak_rss_bytes,
      resource_io_read_bytes := overrideOpt resource_io_read_bytes jr.resource_io_read_bytes,
      resource_io_write_bytes := overrideOpt resource_io_write_bytes jr.resource_io_write_bytes,
      version := jr.version + 1 }

/-- Embedding of the dispatcher's _mark_skipped_if_assigned
(scheduler_worker.py lines 276-294). -/
def _mark_skipped_if_assigned (now : Nat) (jr : JobRun) (reason : String) : Option JobRun :=
  if jr.state ≠ State.ASSIGNED then none
  else if jr.started_at ≠ none then none
  else
    some { jr with
      state := .SKIPPED,
      finished_at := some now,
      error_summary := appendSummary jr.error_summary ("skipped: " ++ reason),
      version := jr.version + 1 }

/-- Embedding of the reconciler's _mark_confirming_if_running
(scheduler_worker.py lines 296-325); confirm_seconds is clamped to at
least one second. -/
def _mark_confirming_if_running (now : Nat) (jr : JobRun) (reason : String)
    (confirm_seconds : Int) : Option JobRun :=
  if jr.state ≠ State.RUNNING then none
  else if jr.continuation_state = ContinuationState.CONFIRMING then none
  else
    some { jr with
      continuation_state := .CONFIRMING,
      continuation_check_started_at := some now,
      continuation_check_deadline_at := some (now + (max 1 confirm_seconds).toNat),
      error_summary := appendSummary jr.error_summary ("confirming: " ++ reason),
      version := jr.version + 1 }

/-- Embedding of the reconciler's _orphan_if_confirming_deadline_exceeded
(scheduler_worker.py lines 327-371). -/
def _orphan_if_confirming_deadline_exceeded (now : Nat) (jr : JobRun)
    (reason : String) : Option JobRun :=
  if jr.state ≠ State.RUNNING then none
  else if jr.continuation_state ≠ ContinuationState.CONFIRMING then none
  else
    match jr.continuation_check_deadline_at with
    | none => none
    | some deadline =>
      if deadline > now then none
      else
        some { jr with
          state := .ORPHANED,
          error_summary := appendSummary jr.error_summary ("orphaned: " ++ reason),
          assigned_worker_id := "",
          assigned_at := none,
          started_at := none,
          finished_at := none,
          exit_code := none,
          continuation_state := .NONE,
          continuation_check_started_at := none,
          continuation_check_deadline_at := none,
          version := jr.version + 1,
          attempt := jr.attempt + 1 }

/-- Per-run effect of leader-tick phase A (scheduler/leader_tick.py lines
195-217): the queryset keeps ASSIGNED runs with a non-null assigned_at
before the cutoff and a non-empty worker; the loop skips runs whose
worker is still active and orphans the rest. -/
def leadertick_orphan_stuck_assigned (_now : Nat) (jr : JobRun)
    (active : List String) (assigned_cutoff : Nat) : Option JobRun :=
  if jr.state ≠ State.ASSIGNED then none
  else
    match jr.assigned_at with
    | none => none
    | some t =>
      if ¬ t < assigned_cutoff then none
      else if jr.assigned_worker_id = "" then none
      else if jr.assigned_worker_id ∈ active then none
      else
        some { jr with
          state := .ORPHANED,
          error_summary := appendSummary jr.error_summary "orphaned: assigned worker inactive",
          assigned_worker_id := "",
          assigned_at := none,
          version := jr.version + 1,
          attempt := jr.attempt + 1 }

/-- Per-run effect of leader-tick phase B (scheduler/leader_tick.py lines
219-280): on RUNNING runs with a non-empty worker, enter CONFIRMING when
the worker is inactive and the continuation state is NONE, and orphan
once a CONFIRMING deadline has passed.  confirm_seconds is clamped to at
least one second (lines 191 and 232). -/
def leadertick_confirm_or_orphan_running (now : Nat) (jr : JobRun)
    (active : List String) (confirm_seconds : Int) : Option JobRun :=
  if jr.state ≠ State.RUNNING then none
  else if jr.assigned_worker_id = "" then none
  else
    match jr.continuation_state with
    | .NONE =>
      if jr.assigned_worker_id ∈ active then none
      else
        some { jr with
          continuation_state := .CONFIRMING,
          continuation_check_started_at := some now,
          continuation_check_deadline_at := some (now + (max 1 confirm_seconds).toNat),
          version := jr.version + 1 }
    | .CONFIRMING =>
      match jr.continuation_check_deadline_at with
      | none => none
      | some deadline =>
        if deadline ≤ now then
          some { jr with
            state := .ORPHANED,
            error_summary := appendSummary jr.error_summary "orphaned: confirming deadline exceeded",
            assigned_worker_id := "",
            assigned_at := none,
            started_at := none,
            finished_at := none,
            exit_code := none,
            continuation_state := .NONE,
            continuation_check_started_at := none,
            continuation_check_deadline_at := none,
            version := jr.version + 1,
            attempt := jr.attempt + 1 }
        else none

/-- Per-run effect of leader-tick phase D, rebalance (scheduler/
leader_tick.py lines 352-400): candidates are ASSIGNED, not started,
with a non-null scheduled_for strictly beyond the future cutoff and a
non-empty worker; the loop skips inactive current workers and recent
assignments, and swaps only when the picked best worker differs.  The
picked worker is a parameter here; the picker itself is verified
separately. -/
def leadertick_rebalance (now : Nat) (jr : JobRun) (active : List String)
    (future_cutoff cooldown_cutoff : Nat) (best : String)
    (leader_epoch : Int) : Option JobRun :=
  if jr.state ≠ State.ASSIGNED then none
  else if jr.started_at ≠ none then none
  else
    match jr.scheduled_for with
    | none => none
    | some s =>
      if ¬ s > future_cutoff then none
      else if jr.assigned_worker_id = "" then none
      else if jr.assigned_worker_id ∉ active then none
      else if (match jr.assigned_at with
               | some a => decide (a > cooldown_cutoff)
               | none => false) then none
      else if best = jr.assigned_worker_id then none
      else
        some { jr with
          assigned_worker_id := best,
          assigned_at := some now,
          leader_epoch := some leader_epoch,
          error_summary := appendSummary jr.error_summary
            ("rebalanced: " ++ jr.assigned_worker_id ++ " -> " ++ best),
          version := jr.version + 1 }

/-- Per-run effect of leader-tick phase E, assignment (scheduler/
leader_tick.py lines 402-427): candidates are PENDING or ORPHANED runs
with a non-null scheduled_for at most window_end; each is assigned to
the picked worker under the current epoch. -/
def leadertick_assign (now : Nat) (jr : JobRun) (window_end : Nat)
    (picked : String) (leader_epoch : Int) : Option JobRun :=
  if jr.state = State.PENDING ∨ jr.state = State.ORPHANED then
    match jr.scheduled_for with
    | none => none
    | some s =>
      if s ≤ window_end then
        some { jr with
          assigned_worker_id := picked,
          assigned_at := some now,
          state := .ASSIGNED,
          leader_epoch := some leader_epoch,
          version := jr.version + 1 }
      else none
  else none

/-- Exhaustive enumeration of the system's persisted JobRun row updates:
the worker runtime's two transitions, the dispatcher's skip, the
reconciler's two transitions, and the leader tick's four per-run phases.
Row creations (materialization, event ingest, the ops re-run action)
are not updates and always insert fresh PENDING rows. -/
inductive UpdateOp where
  | markRunning (worker_id : String) (leader_epoch attempt : Int) (log_ref : String)
  | finish (worker_id : String) (final_state : State) (exit_code : Option Int)
      (error_summary log_ref : String) (peak_rss io_read io_write : Option Int)
  | markSkippedIfAssigned (reason : String)
  | markConfirmingIfRunning (reason : String) (confirm_seconds : Int)
  | orphanIfConfirmingDeadlineExceeded (reason : String)
  | tickOrphanStuckAssigned (active : List String) (assigned_cutoff : Nat)
  | tickConfirmOrOrphanRunning (active : List String) (confirm_seconds : Int)
  | tickRebalance (active : List String) (future_cutoff cooldown_cutoff : Nat)
      (best : String) (leader_epoch : Int)
  | tickAssign (window_end : Nat) (picked : String) (leader_epoch : Int)
deriving DecidableEq

/-- Dispatch of an update operation to its embedding. -/
def applyUpdate (now : Nat) : UpdateOp → JobRun → Option JobRun
  | .markRunning w e a l, jr => _jobrun_mark_running now jr w e a l
  | .finish w fs code summ ref r1 r2 r3, jr => _jobrun_finish now jr w fs code summ ref r1 r2 r3
  | .markSkippedIfAssigned reason, jr => _mark_skipped_if_assigned now jr reason
  | .markConfirmingIfRunning reason cs, jr => _mark_confirming_if_running now jr reason cs
  | .orphanIfConfirmingDeadlineExceeded reason, jr => _orphan_if_confirming_deadline_exceeded now jr reason
  | .tickOrphanStuckAssigned active cutoff, jr => leadertick_orphan_stuck_assigned now jr active cutoff
  | .tickConfirmOrOrphanRunning active cs, jr => leadertick_confirm_or_orphan_running now jr active cs
  | .tickRebalance active fc cc best ep, jr => leadertick_rebalance now jr active fc cc best ep
  | .tickAssign we picked ep, jr => leadertick_assign now jr we picked ep

/-- Test for the operations executed by the leader tick itself. -/
def UpdateOp.isLeaderTickOp : UpdateOp → Bool
  | .tickOrphanStuckAssigned .. => true
  | .tickConfirmOrOrphanRunning .. => true
  | .tickRebalance .. => true
  | .tickAssign .. => true
  | _ => false

/-- Sequential application of timestamped update operations; an
operation that performs no write leaves the row as it was. -/
def applyUpdateSeq (steps : List (Nat × UpdateOp)) (jr : JobRun) : JobRun :=
  List.foldl (fun r p => (applyUpdate p.1 p.2 r).getD r) jr steps

/-- Embedding of _weight_for (scheduler/leader_tick.py lines 314-326):
the configured role weights are clamped to at least 1 when read (lines
315-317) and clamped again inside _weight_for; the role map defaults to
worker. -/
def _weight_for (role_of : String → String)
    (assign_weight_leader assign_weight_subleader assign_weight_worker : Int)
    (worker_id : String) : Nat :=
  let weight_leader := max 1 assign_weight_leader
  let weight_subleader := max 1 assign_weight_subleader
  let weight_worker := max 1 assign_weight_worker
  let role := role_of worker_id
  if role = "leader" then (max 1 weight_leader).toNat
  else if role = "subleader" then (max 1 weight_subleader).toNat
  else (max 1 weight_worker).toNat

/-- Embedding of _effective_load (scheduler/leader_tick.py lines
318-329): assigned count plus running count times the clamped running
load weight; the count maps default to zero for unseen workers. -/
def _effective_load (assigned_counts running_counts : String → Nat)
    (assign_running_load_weight : Int) (worker_id : String) : Nat :=
  let running_load_weight := max 1 assign_running_load_weight
  assigned_counts worker_id + running_counts worker_id * (max 1 running_load_weight).toNat

/-- Fold of _pick_worker's scan over the remaining workers
(scheduler/leader_tick.py lines 336-349): replace the best on a strictly
smaller cross-multiplied ratio, or on an equal ratio with a
lexicographically smaller worker id. -/
def pickLoop (load wt : String → Nat) (best : String) : List String → String
  | [] => best
  | wid :: rest =>
    if load wid * wt best < load best * wt wid then pickLoop load wt wid rest
    else if load wid * wt best = load best * wt wid ∧ wid < best then pickLoop load wt wid rest
    else pickLoop load wt best rest

/-- Embedding of _pick_worker (scheduler/leader_tick.py lines 331-350):
start from the first worker id and scan the rest; the code only runs
with a non-empty worker list (guard at line 297), so the empty case is
arbitrary. -/
def _pick_worker (load wt : String → Nat) (worker_ids : List String) : String :=
  match worker_ids with
  | [] => ""
  | w0 :: rest => pickLoop load wt w0 rest

section Claims

/-- Sample ASSIGNED row used by witnesses. -/
def wAssigned : JobRun :=
  { id := 1, job_definition := 1, scheduled_for := some 300, assigned_at := some 100,
    assigned_worker_id := "w1", state := .ASSIGNED, attempt := 0, version := 3,
    leader_epoch := some 2 }

/-- Sample terminal row used by witnesses. -/
def wTerminal : JobRun :=
  { id := 2, job_definition := 1, state := .SUCCEEDED, version := 7 }

/-- Claim C4: no operation moves a JobRun out of a terminal state; every
state-changing operation of the system requires a non-terminal current
state before writing, so a terminal run is never updated at all. -/
theorem terminal_runs_never_updated (now : Nat) (op : UpdateOp) (jr : JobRun)
    (h : jr.state.isTerminal = true) : applyUpdate now op jr = none := by
  cases op <;> cases hs : jr.state <;>
    simp_all [applyUpdate, State.isTerminal, _jobrun_mark_running, _jobrun_finish,
      _mark_skipped_if_assigned, _mark_confirming_if_running,
      _orphan_if_confirming_deadline_exceeded, leadertick_orphan_stuck_assigned,
      leadertick_confirm_or_orphan_running, leadertick_rebalance, leadertick_assign]

/-- Witness for C4 at a concrete terminal run and operation. -/
theorem terminal_runs_never_updated_witness :
    wTerminal.state.isTerminal = true ∧
      applyUpdate 50 (.markSkippedIfAssigned "late") wTerminal = none :=
  ⟨by decide, terminal_runs_never_updated 50 (.markSkippedIfAssigned "late") wTerminal (by decide)⟩

/-- Claim C5: every persisted update to a JobRun row sets version to the
previous value plus one, so version strictly increases across updates. -/
theorem updates_bump_version (now : Nat) (op : UpdateOp) (jr jr' : JobRun)
    (h : applyUpdate now op jr = some jr') : jr'.version = jr.version + 1 := by
  cases op <;>
    simp only [applyUpdate, _jobrun_mark_running, _jobrun_finish,
      _mark_skipped_if_assigned, _mark_confirming_if_running,
      _orphan_if_confirming_deadline_exceeded, leadertick_orphan_stuck_assigned,
      leadertick_confirm_or_orphan_running, leadertick_rebalance,
      leadertick_assign] at h <;>
    (repeat' split at h) <;> simp_all <;> subst h <;> rfl

/-- Result row of the witness update for C5. -/
def wAssignedStarted : JobRun :=
  { wAssigned with state := .RUNNING, started_at := some 400, attempt := 1,
                   log_ref := "log", version := wAssigned.version + 1 }

/-- Witness for C5 at a concrete successful mark-running update. -/
theorem updates_bump_version_witness :
    applyUpdate 400 (.markRunning "w1" 2 1 "log") wAssigned = some wAssignedStarted ∧
      wAssignedStarted.version = wAssigned.version + 1 :=
  ⟨by decide, updates_bump_version 400 (.markRunning "w1" 2 1 "log") wAssigned wAssignedStarted (by decide)⟩

/-- Sample row with an empty assigned_worker_id (as the leader tick
leaves orphaned runs) used to refute claim C1 as stated. -/
def wOrphanedEmpty : JobRun :=
  { id := 3, job_definition := 1, state := .ORPHANED, attempt := 1, version := 5 }

/-- Counterexample to claim C1 as stated: the run's assigned_worker_id
is empty, the calling worker w1 differs from it, yet _jobrun_finish
transitions the run into a terminal state, because the mismatch guard
only applies when assigned_worker_id is non-empty. -/
theorem finish_by_other_worker_counterexample :
    wOrphanedEmpty.assigned_worker_id ≠ "w1" ∧
      (_jobrun_finish 900 wOrphanedEmpty "w1" .SUCCEEDED (some 0) "" "log"
        none none none).map JobRun.state = some .SUCCEEDED ∧
      wOrphanedEmpty.state ≠ .SUCCEEDED := by decide

/-- Claim C1 amended: _jobrun_mark_running by a worker differing from
the run's assigned_worker_id never writes, and _jobrun_finish by a
worker differing from a non-empty assigned_worker_id never writes. -/
theorem only_assigned_worker_transitions_amended :
    (∀ (now : Nat) (jr : JobRun) (w : String) (ep att : Int) (ref : String),
      w ≠ jr.assigned_worker_id → _jobrun_mark_running now jr w ep att ref = none) ∧
    (∀ (now : Nat) (jr : JobRun) (w : String) (fs : State) (code : Option Int)
      (summ ref : String) (r1 r2 r3 : Option Int),
      jr.assigned_worker_id ≠ "" → w ≠ jr.assigned_worker_id →
        _jobrun_finish now jr w fs code summ ref r1 r2 r3 = none) := by
  constructor
  · intro now jr w ep att ref hw
    simp only [_jobrun_mark_running]
    split_ifs with h1 h2
    · rfl
    · rfl
    · exact absurd (not_not.mp h2).symm hw
  · intro now jr w fs code summ ref r1 r2 r3 hne hw
    simp only [_jobrun_finish]
    rw [if_pos ⟨hne, fun h => hw h.symm⟩]

/-- Witness for the amended C1 at a concrete mismatched worker. -/
theorem only_assigned_worker_transitions_amended_witness :
    _jobrun_mark_running 400 wAssigned "w2" 2 1 "log" = none ∧
      _jobrun_finish 900 wAssigned "w2" .FAILED none "x" "log" none none none = none :=
  ⟨only_assigned_worker_transitions_amended.1 400 wAssigned "w2" 2 1 "log" (by decide),
   only_assigned_worker_transitions_amended.2 900 wAssigned "w2" .FAILED none "x" "log"
     none none none (by decide) (by decide)⟩

/-- Sample ASSIGNED row whose stored leader_epoch is null, used to
refute claim C2 as stated. -/
def wAssignedNullEpoch : JobRun :=
  { id := 4, job_definition := 1, scheduled_for := some 300, assigned_at := some 100,
    assigned_worker_id := "w1", state := .ASSIGNED, version := 2, leader_epoch := none }

/-- Counterexample to claim C2 as stated: the stored leader_epoch is
null, so the condition that the stored leader_epoch is at most the
presented one does not hold, yet the transition succeeds — the fencing
guard is skipped entirely for a null stored epoch. -/
theorem mark_running_null_epoch_counterexample :
    wAssignedNullEpoch.leader_epoch = none ∧
      (_jobrun_mark_running 350 wAssignedNullEpoch "w1" 5 1 "log").isSome = true := by decide

/-- Claim C2 amended: the call writes (returns True) exactly when the
run exists, its state is ASSIGNED, its assigned_worker_id equals the
calling worker, and its stored leader_epoch is either null or at most
the presented epoch; on success the persisted row is the old row with
state RUNNING, started_at, attempt and log_ref recorded and version
bumped; in every other case nothing is written. -/
theorem mark_running_characterization (now : Nat) (found : Option JobRun)
    (w : String) (ep att : Int) (ref : String) :
    ((found.bind fun jr => _jobrun_mark_running now jr w ep att ref) = none ↔
      ¬ ∃ jr, found = some jr ∧ jr.state = .ASSIGNED ∧ jr.assigned_worker_id = w ∧
        (jr.leader_epoch = none ∨ ∃ e, jr.leader_epoch = some e ∧ e ≤ ep)) ∧
    (∀ jr jr', found = some jr → _jobrun_mark_running now jr w ep att ref = some jr' →
      jr' = { jr with
        state := .RUNNING,
        started_at := some now,
        attempt := att,
        log_ref := ref,
        version := jr.version + 1 }) := by
  constructor
  · cases found with
    | none => simp
    | some jr =>
      simp only [Option.some_bind, _jobrun_mark_running]
      cases hle : jr.leader_epoch with
      | none =>
        split_ifs with h1 h2 <;> simp_all
      | some stored =>
        split_ifs <;> simp_all
  · intro jr jr' _ h
    simp only [_jobrun_mark_running] at h
    split_ifs at h with h1 h2
    cases hle : jr.leader_epoch <;> rw [hle] at h <;> dsimp only at h
    · exact (Option.some_injective _ h).symm
    · split_ifs at h with h3
      exact (Option.some_injective _ h).symm

/-- Witness for the amended C2 at a concrete eligible run. -/
theorem mark_running_characterization_witness :
    _jobrun_mark_running 400 wAssigned "w1" 2 1 "log" = some wAssignedStarted ∧
      wAssignedStarted =
        { wAssigned with
          state := .RUNNING,
          started_at := some 400,
          attempt := 1,
          log_ref := "log",
          version := wAssigned.version + 1 } :=
  ⟨by decide,
   (mark_running_characterization 400 (some wAssigned) "w1" 2 1 "log").2 wAssigned
     wAssignedStarted rfl (by decide)⟩

/-- Sample every-five-minutes schedule (kind form) for C3. -/
def every5 : Schedule := { kind := some "every_n_minutes", n := some 5 }

/-- Counterexample to claim C3 as stated: at now = 12:03:30 (43410 s)
with assign_ahead_seconds = 60 the window runs from 12:03:00 to
12:04:00, which contains no minute divisible by five, so the tick
creates no run at all — not exactly one with scheduled_for 12:05:00. -/
theorem materialize_window_counterexample :
    materialize_created_slots every5 43410 60 [] = [] := by decide

/-- Claim C3 amended: at now = 12:03:30 the tick creates no run; at
now = 12:04:30 it creates exactly one PENDING run with scheduled_for
12:05:00 (43500 s); in general the materialization iterates one-minute
slots from floor(now) to floor(now + assign_ahead) inclusive and
creates a run for each matching slot with no existing
(definition, slot) run. -/
theorem materialize_slots_amended :
    materialize_created_slots every5 43410 60 [] = [] ∧
    materialize_created_slots every5 43470 60 [] = [43500] ∧
    (∀ (sched : Schedule) (now : Nat) (ahead : Int) (existing : List Nat) (slot : Nat),
      slot ∈ materialize_created_slots sched now ahead existing ↔
        (slot ∈ _iter_minute_slots (_floor_to_minute now)
            (_floor_to_minute (now + (max 0 ahead).toNat)) ∧
         _schedule_matches_slot (toSlot slot) sched = true ∧ slot ∉ existing)) ∧
    (∀ s e x, x ∈ _iter_minute_slots s e ↔ ∃ k, x = s + 60 * k ∧ x ≤ e) := by
  refine ⟨by decide, by decide, ?_, mem_iter_minute_slots⟩
  intro sched now ahead existing slot
  simp [materialize_created_slots, List.mem_filter, List.elem_iff, and_assoc]

/-- Claim C8: in phase B, a RUNNING run (with an assigned worker) whose
continuation state is NONE and whose worker is inactive enters
CONFIRMING with check_started_at = now and check_deadline_at =
now + confirm_seconds (for the configured confirm_seconds of at least
one second); a CONFIRMING run whose deadline has passed is orphaned
with execution timestamps cleared, continuation reset to NONE, attempt
incremented and version bumped. -/
theorem phaseB_confirm_and_orphan (now : Nat) (active : List String) (cs : Int)
    (jr : JobRun) :
    (jr.state = .RUNNING → jr.assigned_worker_id ≠ "" →
      jr.continuation_state = .NONE → jr.assigned_worker_id ∉ active → 1 ≤ cs →
      leadertick_confirm_or_orphan_running now jr active cs =
        some { jr with
          continuation_state := .CONFIRMING,
          continuation_check_started_at := some now,
          continuation_check_deadline_at := some (now + cs.toNat),
          version := jr.version + 1 }) ∧
    (∀ d, jr.state = .RUNNING → jr.assigned_worker_id ≠ "" →
      jr.continuation_state = .CONFIRMING →
      jr.continuation_check_deadline_at = some d → d ≤ now →
      leadertick_confirm_or_orphan_running now jr active cs =
        some { jr with
          state := .ORPHANED,
          error_summary := appendSummary jr.error_summary "orphaned: confirming deadline exceeded",
          assigned_worker_id := "",
          assigned_at := none,
          started_at := none,
          finished_at := none,
          exit_code := none,
          continuation_state := .NONE,
          continuation_check_started_at := none,
          continuation_check_deadline_at := none,
          version := jr.version + 1,
          attempt := jr.attempt + 1 }) := by
  constructor
  · intro h1 h2 h3 h4 h5
    simp [leadertick_confirm_or_orphan_running, h1, h2, h3, h4, max_eq_right h5]
  · intro d h1 h2 h3 h4 h5
    simp [leadertick_confirm_or_orphan_running, h1, h2, h3, h4, h5]

/-- Sample RUNNING row used by the C8 witness. -/
def wRunningNone : JobRun :=
  { id := 5, job_definition := 1, scheduled_for := some 0, assigned_at := some 10,
    assigned_worker_id := "a", state := .RUNNING, started_at := some 20, version := 4 }

/-- Witness for C8 at a concrete RUNNING run whose worker left the
active set. -/
theorem phaseB_confirm_and_orphan_witness :
    leadertick_confirm_or_orphan_running 100 wRunningNone ["b"] 30 =
      some { wRunningNone with
        continuation_state := .CONFIRMING,
        continuation_check_started_at := some 100,
        continuation_check_deadline_at := some (100 + (30 : Int).toNat),
        version := wRunningNone.version + 1 } :=
  (phaseB_confirm_and_orphan 100 ["b"] 30 wRunningNone).1 (by decide) (by decide)
    (by decide) (by decide) (by decide)

/-- Sample 2000-character summary used to refute claim C9 as stated. -/
def longSummary : String := String.mk (List.replicate 2000 'a')

/-- Sample stuck ASSIGNED row carrying the long summary. -/
def wAssignedLongSummary : JobRun :=
  { id := 6, job_definition := 1, scheduled_for := some 0, assigned_at := some 10,
    assigned_worker_id := "a", state := .ASSIGNED, error_summary := longSummary,
    version := 1 }

/-- Counterexample to claim C9 as stated: the leader tick's orphan write
appends to a 2000-character summary without truncating, persisting a
2035-character error_summary — beyond the 2000-character bound that
_jobrun_finish enforces, so not every write truncates to a fixed bound. -/
theorem error_summary_untruncated_counterexample :
    wAssignedLongSummary.error_summary.length = 2000 ∧
      (applyUpdate 100 (.tickOrphanStuckAssigned ["b"] 50) wAssignedLongSummary).map
        (fun r => r.error_summary.length) = some 2035 := by
  have h2000 : longSummary.length = 2000 := by
    show (List.replicate 2000 'a').length = 2000
    simp only [List.length_replicate]
  have hne : longSummary ≠ "" := by
    intro h
    rw [h] at h2000
    exact absurd h2000 (by decide)
  constructor
  · exact h2000
  · have h : applyUpdate 100 (.tickOrphanStuckAssigned ["b"] 50) wAssignedLongSummary =
        some { wAssignedLongSummary with
          state := .ORPHANED,
          error_summary := appendSummary longSummary "orphaned: assigned worker inactive",
          assigned_worker_id := "",
          assigned_at := none,
          version := wAssignedLongSummary.version + 1,
          attempt := wAssignedLongSummary.attempt + 1 } := rfl
    rw [h]
    simp only [Option.map_some']
    show some ((appendSummary longSummary "orphaned: assigned worker inactive").length) = some 2035
    have hlen : (appendSummary longSummary "orphaned: assigned worker inactive").length = 2035 := by
      rw [appendSummary, if_pos hne, String.length_append, String.length_append, h2000]
      decide
    rw [hlen]

/-- Claim C9 amended: the terminal writes through _jobrun_finish
truncate error_summary to at most 2000 characters, but the append-style
writes do not truncate: for every bound there is an update whose
persisted error_summary is longer. -/
theorem error_summary_bounds_amended :
    (∀ (now : Nat) (jr : JobRun) (w : String) (fs : State) (code : Option Int)
       (summ ref : String) (r1 r2 r3 : Option Int) (jr' : JobRun),
      _jobrun_finish now jr w fs code summ ref r1 r2 r3 = some jr' →
        jr'.error_summary.length ≤ 2000) ∧
    (∀ B : Nat, ∃ (jr jr' : JobRun) (now : Nat) (op : UpdateOp),
      applyUpdate now op jr = some jr' ∧ B < jr'.error_summary.length) := by
  constructor
  · intro now jr w fs code summ ref r1 r2 r3 jr' h
    simp only [_jobrun_finish] at h
    split_ifs at h
    have he : jr'.error_summary = take2000 summ := by
      have := (Option.some_injective _ h).symm
      rw [this]
    rw [he]
    show (summ.data.take 2000).length ≤ 2000
    rw [List.length_take]
    exact min_le_left _ _
  · intro B
    refine ⟨{ id := 7, job_definition := 1, assigned_at := some 0,
              assigned_worker_id := "w", state := .ASSIGNED,
              error_summary := String.mk (List.replicate (B + 1) 'a') }, _, 0,
            .tickOrphanStuckAssigned [] 1, rfl, ?_⟩
    have hne : String.mk (List.replicate (B + 1) 'a') ≠ "" := by
      intro h
      have := congrArg String.data h
      simp at this
    show (appendSummary (String.mk (List.replicate (B + 1) 'a'))
      "orphaned: assigned worker inactive").length > B
    rw [appendSummary, if_pos hne]
    have : (String.mk (List.replicate (B + 1) 'a') ++ "\n" ++
        "orphaned: assigned worker inactive").length = (B + 1) + 1 + 34 := by
      rw [String.length_append, String.length_append]
      simp [String.length]
    omega

/-- Witness for the amended C9: a concrete truncated finish write and a
concrete append exceeding the bound 2000. -/
theorem error_summary_bounds_amended_witness :
    (∃ jr', _jobrun_finish 900 wRunningNone "a" .FAILED (some 1)
        (String.mk (List.replicate 3000 'b')) "log" none none none = some jr' ∧
      jr'.error_summary.length ≤ 2000) ∧
    (∃ (jr jr' : JobRun) (now : Nat) (op : UpdateOp),
      applyUpdate now op jr = some jr' ∧ 2000 < jr'.error_summary.length) := by
  constructor
  · exact ⟨_, rfl, error_summary_bounds_amended.1 900 wRunningNone "a" .FAILED (some 1)
      (String.mk (List.replicate 3000 'b')) "log" none none none _ rfl⟩
  · exact error_summary_bounds_amended.2 2000

/-- Claim C10: a run whose scheduled_for is null and whose state is
PENDING or ORPHANED is untouched by every leader-tick operation —
the assignment and rebalance phases require a non-null scheduled_for
and the other phases require ASSIGNED or RUNNING states — so under
leader ticks alone it stays in its state forever. -/
theorem null_scheduled_not_assigned (jr : JobRun) (hsched : jr.scheduled_for = none)
    (hstate : jr.state = .PENDING ∨ jr.state = .ORPHANED) :
    (∀ (now : Nat) (op : UpdateOp), op.isLeaderTickOp = true →
      applyUpdate now op jr = none) ∧
    (∀ steps : List (Nat × UpdateOp), (∀ p ∈ steps, (p.2).isLeaderTickOp = true) →
      applyUpdateSeq steps jr = jr) := by
  have hstep : ∀ (now : Nat) (op : UpdateOp), op.isLeaderTickOp = true →
      applyUpdate now op jr = none := by
    intro now op hop
    cases op <;> rcases hstate with h | h <;>
      simp_all [applyUpdate, UpdateOp.isLeaderTickOp,
        leadertick_orphan_stuck_assigned, leadertick_confirm_or_orphan_running,
        leadertick_rebalance, leadertick_assign]
  refine ⟨hstep, ?_⟩
  intro steps hall
  induction steps with
  | nil => rfl
  | cons p rest ih =>
    have h1 : (applyUpdate p.1 p.2 jr).getD jr = jr := by
      rw [hstep p.1 p.2 (hall p (by simp))]
      rfl
    show List.foldl _ jr (p :: rest) = jr
    rw [List.foldl_cons]
    simp only [h1]
    exact ih (fun q hq => hall q (by simp [hq]))

/-- Sample event-born row with a null scheduled_for. -/
def wEventBorn : JobRun := { id := 8, job_definition := 2, state := .PENDING }

/-- Witness for C10 at a concrete null-scheduled PENDING run and a
concrete sequence of leader-tick operations. -/
theorem null_scheduled_not_assigned_witness :
    applyUpdateSeq
      [(5, .tickAssign 9999 "w" 1), (6, .tickRebalance ["w"] 0 0 "v" 1),
       (7, .tickOrphanStuckAssigned [] 100), (8, .tickConfirmOrOrphanRunning [] 30)]
      wEventBorn = wEventBorn :=
  (null_scheduled_not_assigned wEventBorn rfl (Or.inl rfl)).2 _ (by decide)

/-- Formalization of the schedule grammar exactly as claim C6 states it:
each production is a strict shape over the recognized keys (a key not
named by the production must be absent), and any other shape never
matches.  Time strings are read through the code's HH:MM parser. -/
def claim_schedule_grammar (dt : SlotTime) (s : Schedule) : Bool :=
  match s.every_n_minutes, s.kind, s.n, s.minute, s.time, s.weekday with
  | some N, none, none, none, none, none =>
    decide (0 < N) && ((dt.minute : Int) % N == 0)
  | none, some "every_n_minutes", some N, none, none, none =>
    decide (0 < N) && ((dt.minute : Int) % N == 0)
  | none, some "hourly", none, some M, none, none =>
    decide (0 ≤ M ∧ M ≤ 59) && ((dt.minute : Int) == M)
  | none, some "daily", none, none, some t, none =>
    (match _parse_hhmm t with
     | some (hh, mm) => (dt.hour : Int) == hh && (dt.minute : Int) == mm
     | none => false)
  | none, some "weekdays", none, none, some t, none =>
    (match _parse_hhmm t with
     | some (hh, mm) =>
       decide (dt.weekday < 5) && ((dt.hour : Int) == hh && (dt.minute : Int) == mm)
     | none => false)
  | none, some "weekly", none, none, some t, some W =>
    (match _parse_hhmm t with
     | some (hh, mm) =>
       decide (0 ≤ W ∧ W ≤ 6) && ((dt.weekday : Int) == W) &&
         ((dt.hour : Int) == hh && (dt.minute : Int) == mm)
     | none => false)
  | _, _, _, _, _, _ => false

/-- Counterexample to claim C6 as stated: a schedule whose only key is
kind = hourly (no minute key) is not one of the claim's shapes, so the
claim says it never matches; the code defaults the missing minute to 0
and matches every minute-zero slot. -/
theorem hourly_missing_minute_counterexample :
    _schedule_matches_slot ⟨0, 7, 2⟩ { kind := some "hourly" } = true ∧
      claim_schedule_grammar ⟨0, 7, 2⟩ { kind := some "hourly" } = false := by decide

/-- Claim C6 amended, as a declarative grammar: matching depends only on
the keys each kind reads (extra keys are ignored); the legacy
every_n_minutes form applies whenever the kind key is absent; the kind
string is trimmed before dispatch; a missing n defaults to 0 (never
matching), a missing hourly minute defaults to 0, a missing time to the
empty (unparsable) string and a missing weekly weekday to -1 (never
matching); the remaining conditions are as the claim states them. -/
def amended_schedule_grammar (dt : SlotTime) (s : Schedule) : Prop :=
  (s.kind = none ∧ ∃ N, s.every_n_minutes = some N ∧ 0 < N ∧ (dt.minute : Int) % N = 0)
  ∨ (kindTrim s = "every_n_minutes" ∧ s.kind ≠ none ∧
      0 < s.n.getD 0 ∧ (dt.minute : Int) % (s.n.getD 0) = 0)
  ∨ (kindTrim s = "hourly" ∧ s.kind ≠ none ∧
      0 ≤ s.minute.getD 0 ∧ s.minute.getD 0 ≤ 59 ∧ (dt.minute : Int) = s.minute.getD 0)
  ∨ (kindTrim s = "daily" ∧ s.kind ≠ none ∧
      ∃ hh mm, _parse_hhmm (s.time.getD "") = some (hh, mm) ∧
        (dt.hour : Int) = hh ∧ (dt.minute : Int) = mm)
  ∨ (kindTrim s = "weekdays" ∧ s.kind ≠ none ∧ dt.weekday < 5 ∧
      ∃ hh mm, _parse_hhmm (s.time.getD "") = some (hh, mm) ∧
        (dt.hour : Int) = hh ∧ (dt.minute : Int) = mm)
  ∨ (kindTrim s = "weekly" ∧ s.kind ≠ none ∧
      0 ≤ s.weekday.getD (-1) ∧ s.weekday.getD (-1) ≤ 6 ∧
      (dt.weekday : Int) = s.weekday.getD (-1) ∧
      ∃ hh mm, _parse_hhmm (s.time.getD "") = some (hh, mm) ∧
        (dt.hour : Int) = hh ∧ (dt.minute : Int) = mm)

/-- Helper for C6: on schedules with a present kind key, the kind
dispatch agrees with the amended grammar. -/
theorem matches_kind_iff (dt : SlotTime) (s : Schedule) (k : String)
    (hk : s.kind = some k) :
    _schedule_matches_kind dt s = true ↔ amended_schedule_grammar dt s := by
  have hkne : s.kind ≠ none := by simp [hk]
  by_cases h1 : kindTrim s = "every_n_minutes"
  · have hL : _schedule_matches_kind dt s =
        _schedule_matches_every_n_minutes dt (s.n.getD 0) := by
      simp only [_schedule_matches_kind]
      rw [if_pos h1]
    rw [hL]
    constructor
    · intro h
      simp only [_schedule_matches_every_n_minutes] at h
      split_ifs at h with hle
      exact Or.inr (Or.inl ⟨h1, hkne, by omega, by simpa using h⟩)
    · rintro (⟨hkn, -⟩ | ⟨-, -, hpos, hmod⟩ | ⟨hx, -⟩ | ⟨hx, -⟩ | ⟨hx, -⟩ | ⟨hx, -⟩)
      · exact absurd hkn hkne
      · simp only [_schedule_matches_every_n_minutes]
        rw [if_neg (by omega)]
        simpa using hmod
      · exact absurd (h1.symm.trans hx) (by decide)
      · exact absurd (h1.symm.trans hx) (by decide)
      · exact absurd (h1.symm.trans hx) (by decide)
      · exact absurd (h1.symm.trans hx) (by decide)
  · by_cases h2 : kindTrim s = "hourly"
    · have hL : _schedule_matches_kind dt s =
          (if 0 ≤ s.minute.getD 0 ∧ s.minute.getD 0 ≤ 59
           then ((dt.minute : Int) == s.minute.getD 0) else false) := by
        simp only [_schedule_matches_kind]
        rw [if_neg h1, if_pos h2]
      rw [hL]
      constructor
      · intro h
        split_ifs at h with hr
        exact Or.inr (Or.inr (Or.inl ⟨h2, hkne, hr.1, hr.2, by simpa using h⟩))
      · rintro (⟨hkn, -⟩ | ⟨hx, -⟩ | ⟨-, -, h0, h59, heq⟩ | ⟨hx, -⟩ | ⟨hx, -⟩ | ⟨hx, -⟩)
        · exact absurd hkn hkne
        · exact absurd (h2.symm.trans hx) (by decide)
        · rw [if_pos ⟨h0, h59⟩]
          simpa using heq
        · exact absurd (h2.symm.trans hx) (by decide)
        · exact absurd (h2.symm.trans hx) (by decide)
        · exact absurd (h2.symm.trans hx) (by decide)
    · by_cases h3 : kindTrim s = "daily"
      · rcases hp : _parse_hhmm (s.time.getD "") with _ | ⟨hh, mm⟩
        · have hL : _schedule_matches_kind dt s = false := by
            simp only [_schedule_matches_kind]
            rw [if_neg h1, if_neg h2, if_pos h3, hp]
          rw [hL]
          constructor
          · intro h
            exact absurd h (by simp)
          · rintro (⟨hkn, -⟩ | ⟨hx, -⟩ | ⟨hx, -⟩ |
              ⟨-, -, hh', mm', hpp, -⟩ | ⟨hx, -⟩ | ⟨hx, -⟩)
            · exact absurd hkn hkne
            · exact absurd (h3.symm.trans hx) (by decide)
            · exact absurd (h3.symm.trans hx) (by decide)
            · rw [hp] at hpp
              exact Option.noConfusion hpp
            · exact absurd (h3.symm.trans hx) (by decide)
            · exact absurd (h3.symm.trans hx) (by decide)
        · have hL : _schedule_matches_kind dt s =
              ((dt.hour : Int) == hh && (dt.minute : Int) == mm) := by
            simp only [_schedule_matches_kind]
            rw [if_neg h1, if_neg h2, if_pos h3, hp]
          rw [hL]
          constructor
          · intro h
            simp only [Bool.and_eq_true, beq_iff_eq] at h
            exact Or.inr (Or.inr (Or.inr (Or.inl
              ⟨h3, hkne, hh, mm, hp, h.1, h.2⟩)))
          · rintro (⟨hkn, -⟩ | ⟨hx, -⟩ | ⟨hx, -⟩ |
              ⟨-, -, hh', mm', hpp, hhh, hmm⟩ | ⟨hx, -⟩ | ⟨hx, -⟩)
            · exact absurd hkn hkne
            · exact absurd (h3.symm.trans hx) (by decide)
            · exact absurd (h3.symm.trans hx) (by decide)
            · rw [hp] at hpp
              cases Option.some_injective _ hpp
              simp [hhh, hmm]
            · exact absurd (h3.symm.trans hx) (by decide)
            · exact absurd (h3.symm.trans hx) (by decide)
      · by_cases h4 : kindTrim s = "weekdays"
        · rcases hp : _parse_hhmm (s.time.getD "") with _ | ⟨hh, mm⟩
          · have hL : _schedule_matches_kind dt s = false := by
              simp only [_schedule_matches_kind]
              rw [if_neg h1, if_neg h2, if_neg h3, if_pos h4, hp]
            rw [hL]
            constructor
            · intro h
              exact absurd h (by simp)
            · rintro (⟨hkn, -⟩ | ⟨hx, -⟩ | ⟨hx, -⟩ | ⟨hx, -⟩ |
                ⟨-, -, -, hh', mm', hpp, -⟩ | ⟨hx, -⟩)
              · exact absurd hkn hkne
              · exact absurd (h4.symm.trans hx) (by decide)
              · exact absurd (h4.symm.trans hx) (by decide)
              · exact absurd (h4.symm.trans hx) (by decide)
              · rw [hp] at hpp
                exact Option.noConfusion hpp
              · exact absurd (h4.symm.trans hx) (by decide)
          · have hL : _schedule_matches_kind dt s =
                (if 5 ≤ dt.weekday then false
                 else ((dt.hour : Int) == hh && (dt.minute : Int) == mm)) := by
              simp only [_schedule_matches_kind]
              rw [if_neg h1, if_neg h2, if_neg h3, if_pos h4, hp]
            rw [hL]
            constructor
            · intro h
              split_ifs at h with hw
              simp only [Bool.and_eq_true, beq_iff_eq] at h
              exact Or.inr (Or.inr (Or.inr (Or.inr (Or.inl
                ⟨h4, hkne, by omega, hh, mm, hp, h.1, h.2⟩))))
            · rintro (⟨hkn, -⟩ | ⟨hx, -⟩ | ⟨hx, -⟩ | ⟨hx, -⟩ |
                ⟨-, -, hw, hh', mm', hpp, hhh, hmm⟩ | ⟨hx, -⟩)
              · exact absurd hkn hkne
              · exact absurd (h4.symm.trans hx) (by decide)
              · exact absurd (h4.symm.trans hx) (by decide)
              · exact absurd (h4.symm.trans hx) (by decide)
              · rw [hp] at hpp
                cases Option.some_injective _ hpp
                rw [if_neg (by omega)]
                simp [hhh, hmm]
              · exact absurd (h4.symm.trans hx) (by decide)
        · by_cases h5 : kindTrim s = "weekly"
          · rcases hp : _parse_hhmm (s.time.getD "") with _ | ⟨hh, mm⟩
            · have hL : _schedule_matches_kind dt s = false := by
                simp only [_schedule_matches_kind]
                rw [if_neg h1, if_neg h2, if_neg h3, if_neg h4, if_pos h5, hp]
              rw [hL]
              constructor
              · intro h
                exact absurd h (by simp)
              · rintro (⟨hkn, -⟩ | ⟨hx, -⟩ | ⟨hx, -⟩ | ⟨hx, -⟩ | ⟨hx, -⟩ |
                  ⟨-, -, -, -, -, hh', mm', hpp, -⟩)
                · exact absurd hkn hkne
                · exact absurd (h5.symm.trans hx) (by decide)
                · exact absurd (h5.symm.trans hx) (by decide)
                · exact absurd (h5.symm.trans hx) (by decide)
                · exact absurd (h5.symm.trans hx) (by decide)
                · rw [hp] at hpp
                  exact Option.noConfusion hpp
            · have hL : _schedule_matches_kind dt s =
                  (if 0 ≤ s.weekday.getD (-1) ∧ s.weekday.getD (-1) ≤ 6
                   then ((dt.weekday : Int) == s.weekday.getD (-1) &&
                     (dt.hour : Int) == hh && (dt.minute : Int) == mm)
                   else false) := by
                simp only [_schedule_matches_kind]
                rw [if_neg h1, if_neg h2, if_neg h3, if_neg h4, if_pos h5, hp]
              rw [hL]
              constructor
              · intro h
                split_ifs at h with hr
                simp only [Bool.and_eq_true, beq_iff_eq] at h
                exact Or.inr (Or.inr (Or.inr (Or.inr (Or.inr
                  ⟨h5, hkne, hr.1, hr.2, h.1.1, hh, mm, hp, h.1.2, h.2⟩))))
              · rintro (⟨hkn, -⟩ | ⟨hx, -⟩ | ⟨hx, -⟩ | ⟨hx, -⟩ | ⟨hx, -⟩ |
                  ⟨-, -, h0, h6, hwd, hh', mm', hpp, hhh, hmm⟩)
                · exact absurd hkn hkne
                · exact absurd (h5.symm.trans hx) (by decide)
                · exact absurd (h5.symm.trans hx) (by decide)
                · exact absurd (h5.symm.trans hx) (by decide)
                · exact absurd (h5.symm.trans hx) (by decide)
                · rw [hp] at hpp
                  cases Option.some_injective _ hpp
                  rw [if_pos ⟨h0, h6⟩]
                  simp [hwd, hhh, hmm]
          · have hL : _schedule_matches_kind dt s = false := by
              simp only [_schedule_matches_kind]
              rw [if_neg h1, if_neg h2, if_neg h3, if_neg h4, if_neg h5]
            rw [hL]
            constructor
            · intro h
              exact absurd h (by simp)
            · rintro (⟨hkn, -⟩ | ⟨hx, -⟩ | ⟨hx, -⟩ | ⟨hx, -⟩ | ⟨hx, -⟩ | ⟨hx, -⟩)
              · exact absurd hkn hkne
              · exact absurd hx h1
              · exact absurd hx h2
              · exact absurd hx h3
              · exact absurd hx h4
              · exact absurd hx h5


/-- Claim C6 amended: the code's matcher agrees with the amended
grammar on every slot and schedule. -/
theorem schedule_grammar_amended (dt : SlotTime) (s : Schedule) :
    _schedule_matches_slot dt s = true ↔ amended_schedule_grammar dt s := by
  rcases hev : s.every_n_minutes with _ | N <;> rcases hk : s.kind with _ | k
  · have hkt : kindTrim s = "" := by rw [kindTrim, hk]; rfl
    simp [_schedule_matches_slot, hev, hk, _schedule_matches_kind, hkt,
      amended_schedule_grammar]
  · simp only [_schedule_matches_slot, hev, hk]
    exact matches_kind_iff dt s k hk
  · have hkt : kindTrim s = "" := by rw [kindTrim, hk]; rfl
    simp [_schedule_matches_slot, hev, hk, _schedule_matches_kind, hkt,
      amended_schedule_grammar, _schedule_matches_every_n_minutes]
  · simp only [_schedule_matches_slot, hev, hk]
    exact matches_kind_iff dt s k hk

/-- Transitivity of the cross-multiplied load-per-weight comparison. -/
theorem ratio_le_trans (la lb lc wa wb wc : Nat) (hb : 0 < wb)
    (h1 : la * wb ≤ lb * wa) (h2 : lb * wc ≤ lc * wb) : la * wc ≤ lc * wa := by
  have h : la * wc * wb ≤ lc * wa * wb := by
    calc la * wc * wb = la * wb * wc := by ring
    _ ≤ lb * wa * wc := mul_le_mul_right' h1 wc
    _ = lb * wc * wa := by ring
    _ ≤ lc * wb * wa := mul_le_mul_right' h2 wa
    _ = lc * wa * wb := by ring
  exact Nat.le_of_mul_le_mul_right h hb

/-- Strict version of the cross-multiplied comparison chain. -/
theorem ratio_lt_of_le_of_lt (la lb lc wa wb wc : Nat) (ha : 0 < wa) (hb : 0 < wb)
    (h1 : la * wb ≤ lb * wa) (h2 : lb * wc < lc * wb) : la * wc < lc * wa := by
  have h : la * wc * wb < lc * wa * wb := by
    calc la * wc * wb = la * wb * wc := by ring
    _ ≤ lb * wa * wc := mul_le_mul_right' h1 wc
    _ = lb * wc * wa := by ring
    _ < lc * wb * wa := (Nat.mul_lt_mul_right ha).mpr h2
    _ = lc * wa * wb := by ring
  exact (Nat.mul_lt_mul_right hb).mp h

/-- Cancellation for equal cross-multiplied ratios sharing a worker. -/
theorem ratio_eq_cancel (la lb lc wa wb wc : Nat) (hc : 0 < wc)
    (h1 : la * wc = lc * wa) (h2 : lb * wc = lc * wb) : la * wb = lb * wa := by
  have h : la * wb * wc = lb * wa * wc := by
    calc la * wb * wc = la * wc * wb := by ring
    _ = lc * wa * wb := by rw [h1]
    _ = lc * wb * wa := by ring
    _ = lb * wc * wa := by rw [h2]
    _ = lb * wa * wc := by ring
  exact Nat.eq_of_mul_eq_mul_right hc h

/-- Invariant of the picker's scan: the returned worker is among the
candidates, minimizes the cross-multiplied ratio, and on ties is the
lexicographically least. -/
theorem pickLoop_spec (load wt : String → Nat) (hwt : ∀ x, 0 < wt x) :
    ∀ (rest : List String) (best : String),
      (pickLoop load wt best rest = best ∨ pickLoop load wt best rest ∈ rest) ∧
      (∀ u, (u = best ∨ u ∈ rest) →
        load (pickLoop load wt best rest) * wt u ≤
          load u * wt (pickLoop load wt best rest)) ∧
      (∀ u, (u = best ∨ u ∈ rest) →
        load (pickLoop load wt best rest) * wt u =
          load u * wt (pickLoop load wt best rest) →
        pickLoop load wt best rest ≤ u) := by
  intro rest
  induction rest with
  | nil =>
    intro best
    simp only [pickLoop]
    refine ⟨Or.inl (by simp), ?_, ?_⟩
    · rintro u (rfl | h)
      · exact le_of_eq (by ring)
      · exact absurd h (List.not_mem_nil u)
    · rintro u (rfl | h) _
      · exact le_refl u
      · exact absurd h (List.not_mem_nil u)
  | cons w ws ih =>
    intro best
    simp only [pickLoop]
    split_ifs with hlt heq
    · obtain ⟨hmem, hle, htie⟩ := ih w
      refine ⟨?_, ?_, ?_⟩
      · rcases hmem with h | h
        · refine Or.inr ?_
          rw [h]
          exact List.mem_cons_self w ws
        · exact Or.inr (List.mem_cons_of_mem w h)
      · rintro u (rfl | hu)
        · exact (ratio_lt_of_le_of_lt _ (load w) _ _ (wt w) _
            (hwt _) (hwt w) (hle w (Or.inl rfl)) hlt).le
        · exact hle u (List.mem_cons.mp hu)
      · rintro u (rfl | hu) hteq
        · exact absurd hteq (Nat.ne_of_lt (ratio_lt_of_le_of_lt _ (load w) _ _
            (wt w) _ (hwt _) (hwt w) (hle w (Or.inl rfl)) hlt))
        · exact htie u (List.mem_cons.mp hu) hteq
    · obtain ⟨hmem, hle, htie⟩ := ih w
      refine ⟨?_, ?_, ?_⟩
      · rcases hmem with h | h
        · refine Or.inr ?_
          rw [h]
          exact List.mem_cons_self w ws
        · exact Or.inr (List.mem_cons_of_mem w h)
      · rintro u (rfl | hu)
        · exact ratio_le_trans _ (load w) _ _ (wt w) _
            (hwt w) (hle w (Or.inl rfl)) heq.1.le
        · exact hle u (List.mem_cons.mp hu)
      · rintro u (rfl | hu) hteq
        · have hrw : load (pickLoop load wt w ws) * wt w =
              load w * wt (pickLoop load wt w ws) :=
            ratio_eq_cancel _ (load w) (load u) _ (wt w) (wt u)
              (hwt u) hteq heq.1
          exact le_trans (htie w (Or.inl rfl) hrw) heq.2.le
        · exact htie u (List.mem_cons.mp hu) hteq
    · obtain ⟨hmem, hle, htie⟩ := ih best
      have hge : load best * wt w ≤ load w * wt best := not_lt.mp hlt
      refine ⟨?_, ?_, ?_⟩
      · rcases hmem with h | h
        · exact Or.inl h
        · exact Or.inr (List.mem_cons_of_mem w h)
      · rintro u (rfl | hu)
        · exact hle u (Or.inl rfl)
        · rcases List.mem_cons.mp hu with rfl | hu'
          · exact ratio_le_trans _ (load best) _ _ (wt best) _
              (hwt best) (hle best (Or.inl rfl)) hge
          · exact hle u (Or.inr hu')
      · rintro u (rfl | hu) hteq
        · exact htie u (Or.inl rfl) hteq
        · rcases List.mem_cons.mp hu with rfl | hu'
          · by_cases hcase : load u * wt best = load best * wt u
            · have hnb : ¬ u < best := fun hwb => heq ⟨hcase, hwb⟩
              have hrb : load (pickLoop load wt best ws) * wt best =
                  load best * wt (pickLoop load wt best ws) :=
                ratio_eq_cancel _ (load best) (load u) _ (wt best) (wt u)
                  (hwt u) hteq hcase.symm
              exact le_trans (htie best (Or.inl rfl) hrb) (not_lt.mp hnb)
            · have hstrict : load best * wt u < load u * wt best :=
                lt_of_le_of_ne hge (fun he => hcase he.symm)
              exact absurd hteq (Nat.ne_of_lt (ratio_lt_of_le_of_lt _ (load best) _ _
                (wt best) _ (hwt _) (hwt best) (hle best (Or.inl rfl)) hstrict))
          · exact htie u (Or.inr hu') hteq

/-- Claim C7: for every non-empty worker list the picker returns a
candidate that minimizes effective load over weight, comparing the
fractions by exact integer cross-multiplication, and among candidates
with an equal ratio it returns the lexicographically smallest id. -/
theorem pick_worker_minimizes_ratio
    (assigned_counts running_counts : String → Nat)
    (assign_running_load_weight assign_weight_leader assign_weight_subleader
      assign_weight_worker : Int) (role_of : String → String)
    (load wt : String → Nat)
    (hload : load = _effective_load assigned_counts running_counts
      assign_running_load_weight)
    (hw : wt = _weight_for role_of assign_weight_leader assign_weight_subleader
      assign_weight_worker)
    (w0 : String) (rest : List String) :
    _pick_worker load wt (w0 :: rest) ∈ w0 :: rest ∧
      (∀ u ∈ w0 :: rest, load (_pick_worker load wt (w0 :: rest)) * wt u ≤
        load u * wt (_pick_worker load wt (w0 :: rest))) ∧
      (∀ u ∈ w0 :: rest, load (_pick_worker load wt (w0 :: rest)) * wt u =
        load u * wt (_pick_worker load wt (w0 :: rest)) →
        _pick_worker load wt (w0 :: rest) ≤ u) := by
  subst hload hw
  set load := _effective_load assigned_counts running_counts assign_running_load_weight
  set wt := _weight_for role_of assign_weight_leader assign_weight_subleader
    assign_weight_worker
  have hwt : ∀ x, 0 < wt x := by
    intro x
    simp only [wt, _weight_for]
    split_ifs <;> omega
  obtain ⟨hmem, hle, htie⟩ := pickLoop_spec load wt hwt rest w0
  refine ⟨?_, ?_, ?_⟩
  · show pickLoop load wt w0 rest ∈ w0 :: rest
    rcases hmem with h | h
    · rw [h]
      exact List.mem_cons_self w0 rest
    · exact List.mem_cons_of_mem w0 h
  · intro u hu
    exact hle u (List.mem_cons.mp hu)
  · intro u hu
    exact htie u (List.mem_cons.mp hu)

/-- Witness for C7 at a concrete two-worker cluster. -/
theorem pick_worker_minimizes_ratio_witness :
    _pick_worker
      (_effective_load (fun _ => 0) (fun _ => 0) 2)
      (_weight_for (fun w => if w = "a" then "leader" else "worker") 1 2 3)
      ["b", "a"] ∈ ["b", "a"] :=
  (pick_worker_minimizes_ratio (fun _ => 0) (fun _ => 0) 2 1 2 3
    (fun w => if w = "a" then "leader" else "worker") _ _ rfl rfl "b" ["a"]).1

end Claims

end SchedulerSpec
